import Mathlib

/-!
Shallow embedding of the frame-orchestration and skeletal-animation core of
the `hotham` VR engine, together with proofs about the behaviour its
specification describes.

The embedding covers:
* `poll_xr_event` from `src/hotham/src/resources/xr_context/mod.rs`
  (session-state machine event polling);
* `begin_frame` / `end_frame` from the same file (frame loop protocol),
  modelled against an explicit runtime oracle that supplies the results of
  each OpenXR call, with a call trace recording which calls were issued;
* `skinning_system` from `src/hotham/src/systems/skinning.rs`, over
  4x4 rational matrices (exact-arithmetic model of the `f32` matrices);
* `Material.load` from `src/hotham/src/components/material.rs`;
* the per-frame schedule built in
  `src/examples/beat-saber-clone/src/lib.rs` (`real_main`).

Rust panics (`unwrap` on `None`/`Err`, out-of-bounds indexing) are modelled
by `Option`-valued results (`none` = panic) or by an aborted-run flag;
fallible calls are modelled with `Except`.
-/

/-- OpenXR session lifecycle states, as in `openxr::SessionState`. -/
inductive SessionState
  | idle
  | ready
  | synchronized
  | visible
  | focused
  | stopping
  | lossPending
  | exiting
  deriving DecidableEq

/-- The events `poll_xr_event` distinguishes: a session state change, an
instance-loss-pending notification, or any other event (drained and
ignored by the `Some(_)` arm). -/
inductive XrEvent
  | sessionStateChanged (s : SessionState)
  | instanceLossPending
  | other
  deriving DecidableEq

/-- Errors surfaced through `Result`/`Except` by the XR runtime. -/
inductive XrError
  | runtimeError
  deriving DecidableEq

/-- The `loop` body of `XrContext::poll_xr_event`: the pending event queue is
drained front to back.  A `SessionStateChanged` event updates the session
state; an `InstanceLossPending` event breaks out of the loop (leaving the
rest of the queue pending); any other event is ignored; an empty queue
breaks out of the loop.  Returns the resulting session state and the
still-pending queue. -/
def pollLoop : SessionState → List XrEvent → SessionState × List XrEvent
  | s, [] => (s, [])
  | _, XrEvent.sessionStateChanged ns :: rest => pollLoop ns rest
  | s, XrEvent.instanceLossPending :: rest => (s, rest)
  | s, XrEvent.other :: rest => pollLoop s rest

/-- `XrContext::poll_xr_event`: runs the drain loop and then returns
`Ok(self.session_state)`.  The returned triple is (the `Result` value the
caller sees, the new `session_state` field, the remaining event queue). -/
def poll_xr_event (s : SessionState) (queue : List XrEvent) :
    Except XrError SessionState × SessionState × List XrEvent :=
  let r := pollLoop s queue
  (Except.ok r.1, r.1, r.2)

/-- Folds the state changes of a list of events that contains no
`instanceLossPending`, mirroring what the drain loop does to the
`session_state` field before it hits a loss event. -/
def applyStateChanges : SessionState → List XrEvent → SessionState
  | s, [] => s
  | _, XrEvent.sessionStateChanged ns :: rest => applyStateChanges ns rest
  | s, XrEvent.instanceLossPending :: rest => applyStateChanges s rest
  | s, XrEvent.other :: rest => applyStateChanges s rest

theorem pollLoop_no_loss (s : SessionState) (q : List XrEvent)
    (h : XrEvent.instanceLossPending ∉ q) :
    pollLoop s q = (applyStateChanges s q, []) := by
  induction q generalizing s with
  | nil => rfl
  | cons e rest ih =>
    cases e with
    | sessionStateChanged ns =>
      simp only [pollLoop, applyStateChanges]
      exact ih ns (fun hm => h (List.mem_cons_of_mem _ hm))
    | instanceLossPending => exact absurd (List.mem_cons_self _ _) h
    | other =>
      simp only [pollLoop, applyStateChanges]
      exact ih s (fun hm => h (List.mem_cons_of_mem _ hm))

theorem pollLoop_loss (s : SessionState) (q₁ q₂ : List XrEvent)
    (h : XrEvent.instanceLossPending ∉ q₁) :
    pollLoop s (q₁ ++ XrEvent.instanceLossPending :: q₂) =
      (applyStateChanges s q₁, q₂) := by
  induction q₁ generalizing s with
  | nil => rfl
  | cons e rest ih =>
    cases e with
    | sessionStateChanged ns =>
      simp only [List.cons_append, pollLoop, applyStateChanges]
      exact ih ns (fun hm => h (List.mem_cons_of_mem _ hm))
    | instanceLossPending => exact absurd (List.mem_cons_self _ _) h
    | other =>
      simp only [List.cons_append, pollLoop, applyStateChanges]
      exact ih s (fun hm => h (List.mem_cons_of_mem _ hm))

/-- The `openxr::FrameState` fields recorded by `begin_frame` (times in
nanoseconds, modelled as integers). -/
structure FrameState where
  predicted_display_time : Int
  predicted_display_period : Int
  should_render : Bool
  deriving DecidableEq

/-- An `xr::Posef`: orientation quaternion and position vector. -/
structure Posef where
  orientation : ℚ × ℚ × ℚ × ℚ
  position : ℚ × ℚ × ℚ
  deriving DecidableEq

/-- An `xr::Fovf`: the four field-of-view half angles. -/
structure Fovf where
  angle_left : ℚ
  angle_right : ℚ
  angle_up : ℚ
  angle_down : ℚ
  deriving DecidableEq

/-- An `xr::View`: a per-eye pose and field of view. -/
structure View where
  pose : Posef
  fov : Fovf
  deriving DecidableEq

/-- A `vk::Extent2D`. -/
structure Extent2D where
  width : Nat
  height : Nat
  deriving DecidableEq

/-- An `xr::Rect2Di`: integer offset and extent. -/
structure Rect2Di where
  offset_x : Int
  offset_y : Int
  extent_width : Int
  extent_height : Int
  deriving DecidableEq

/-- An `xr::CompositionLayerProjectionView` as built by `end_frame`: pose,
fov, and the sub-image (swapchain array layer index and image rectangle). -/
structure CompositionLayerProjectionView where
  pose : Posef
  fov : Fovf
  image_array_index : Nat
  image_rect : Rect2Di
  deriving DecidableEq

/-- `openxr::Duration::INFINITE` (`XR_INFINITE_DURATION`), in nanoseconds. -/
def xrInfiniteDuration : Int := 2 ^ 63 - 1

/-- The OpenXR calls `begin_frame` / `end_frame` can issue, in the order the
functions issue them (recorded as a trace). -/
inductive XrCall
  | waitFrame
  | beginStream
  | acquireImage
  | waitImage (timeout : Int)
  | releaseImage
  | endStream (displayTime : Int)
  deriving DecidableEq

/-- The mutable fields of `XrContext` that the frame protocol touches. -/
structure XrCtx where
  session_state : SessionState
  frame_state : FrameState
  views : List View
  frame_index : Nat
  swapchain_resolution : Extent2D
  deriving DecidableEq

/-- The frame-protocol-relevant initial state built by `XrContext::_new`:
session state `IDLE`, a zeroed `FrameState` with `should_render = false`,
an empty `views` vector, and `frame_index = 0`. -/
def XrContext_new (res : Extent2D) : XrCtx :=
  { session_state := SessionState.idle
    frame_state :=
      { predicted_display_time := 0
        predicted_display_period := 0
        should_render := false }
    views := []
    frame_index := 0
    swapchain_resolution := res }

/-- Oracle for the runtime calls a frame makes: the result each OpenXR call
would return this frame (`frame_waiter.wait`, `frame_stream.begin`,
`swapchain.acquire_image`, `swapchain.wait_image`, `swapchain.release_image`,
`frame_stream.end`). -/
structure FrameRuntime where
  waitRes : Except XrError FrameState
  beginRes : Except XrError Unit
  acquireRes : Except XrError Nat
  waitImageRes : Except XrError Unit
  releaseRes : Except XrError Unit
  endRes : Except XrError Unit

/-- `XrContext::begin_frame`: `frame_state = frame_waiter.wait()?`, then
`frame_stream.begin()?`, then `frame_index = swapchain.acquire_image()?`,
then `swapchain.wait_image(Duration::INFINITE)?`.  Each `?` returns the
error immediately, keeping the field mutations already made.  The result is
(the context after the call, the `Result` value, the trace of runtime calls
issued). -/
def begin_frame (ctx : XrCtx) (rt : FrameRuntime) :
    XrCtx × Except XrError Unit × List XrCall :=
  match rt.waitRes with
  | Except.error e => (ctx, Except.error e, [XrCall.waitFrame])
  | Except.ok fs =>
    let ctx' := { ctx with frame_state := fs }
    match rt.beginRes with
    | Except.error e => (ctx', Except.error e, [XrCall.waitFrame, XrCall.beginStream])
    | Except.ok _ =>
      match rt.acquireRes with
      | Except.error e =>
        (ctx', Except.error e, [XrCall.waitFrame, XrCall.beginStream, XrCall.acquireImage])
      | Except.ok idx =>
        let ctx'' := { ctx' with frame_index := idx }
        match rt.waitImageRes with
        | Except.error e =>
          (ctx'', Except.error e,
            [XrCall.waitFrame, XrCall.beginStream, XrCall.acquireImage,
              XrCall.waitImage xrInfiniteDuration])
        | Except.ok _ =>
          (ctx'', Except.ok (),
            [XrCall.waitFrame, XrCall.beginStream, XrCall.acquireImage,
              XrCall.waitImage xrInfiniteDuration])

/-- The full-swapchain image rectangle `end_frame` builds: zero offset and
the swapchain resolution as extent. -/
def fullRect (ctx : XrCtx) : Rect2Di :=
  { offset_x := 0
    offset_y := 0
    extent_width := (ctx.swapchain_resolution.width : Int)
    extent_height := (ctx.swapchain_resolution.height : Int) }

/-- `XrContext::end_frame`: `swapchain.release_image().unwrap()` (a release
failure panics: `none`), then two projection views are built from
`self.views[0]` and `self.views[1]` (an out-of-bounds index panics: `none`)
with array layer indices 0 and 1 and the full swapchain rectangle, and the
layer set is submitted via `frame_stream.end` at the frame's predicted
display time.  On the non-panicking path the result is (the value of
`frame_stream.end`, the projection views built, the call trace). -/
def end_frame (ctx : XrCtx) (rt : FrameRuntime) :
    Option (Except XrError Unit × List CompositionLayerProjectionView × List XrCall) :=
  match rt.releaseRes with
  | Except.error _ => none
  | Except.ok _ =>
    match ctx.views[0]?, ctx.views[1]? with
    | some v0, some v1 =>
      let rect := fullRect ctx
      let pv0 : CompositionLayerProjectionView :=
        { pose := v0.pose, fov := v0.fov, image_array_index := 0, image_rect := rect }
      let pv1 : CompositionLayerProjectionView :=
        { pose := v1.pose, fov := v1.fov, image_array_index := 1, image_rect := rect }
      some (rt.endRes, [pv0, pv1],
        [XrCall.releaseImage, XrCall.endStream ctx.frame_state.predicted_display_time])
    | _, _ => none

/-- Concrete frame state used in witnesses. -/
def fsW : FrameState :=
  { predicted_display_time := 100
    predicted_display_period := 16
    should_render := true }

/-- Runtime oracle in which every OpenXR call succeeds. -/
def rtOk : FrameRuntime :=
  { waitRes := Except.ok fsW
    beginRes := Except.ok ()
    acquireRes := Except.ok 2
    waitImageRes := Except.ok ()
    releaseRes := Except.ok ()
    endRes := Except.ok () }

/-- Concrete per-eye views used in witnesses. -/
def viewA : View :=
  { pose := { orientation := (0, 0, 0, 1), position := (1, 2, 3) }
    fov := { angle_left := -1, angle_right := 1, angle_up := 1, angle_down := -1 } }

/-- A second concrete per-eye view used in witnesses. -/
def viewB : View :=
  { pose := { orientation := (0, 1, 0, 0), position := (4, 5, 6) }
    fov := { angle_left := -2, angle_right := 2, angle_up := 2, angle_down := -2 } }

/-- C3 counterexample: delivering an instance-loss-pending event makes
`poll_xr_event` terminate the drain loop early (the following state-change
event is left unprocessed in the queue), but the caller receives
`Ok(session_state)` — a successful result, not an error — contradicting
the claim that session loss is observed as an error result. -/
theorem c3_counterexample :
    poll_xr_event SessionState.focused
        [XrEvent.instanceLossPending, XrEvent.sessionStateChanged SessionState.exiting] =
      (Except.ok SessionState.focused, SessionState.focused,
        [XrEvent.sessionStateChanged SessionState.exiting]) ∧
    (poll_xr_event SessionState.focused
        [XrEvent.instanceLossPending, XrEvent.sessionStateChanged SessionState.exiting]).1 ≠
      Except.error XrError.runtimeError := by
  exact ⟨rfl, fun h => Except.noConfusion h⟩

/-- C3 (amended): a loss-pending event delivered during polling terminates
the drain loop early — state changes before it are applied, events after it
are left pending — but `poll_xr_event` returns `Ok` with the session state
reached so far; no failure is reported to the caller. -/
theorem c3_loss_pending_stops_loop_returns_ok
    (s : SessionState) (q₁ q₂ : List XrEvent)
    (h : XrEvent.instanceLossPending ∉ q₁) :
    poll_xr_event s (q₁ ++ XrEvent.instanceLossPending :: q₂) =
      (Except.ok (applyStateChanges s q₁), applyStateChanges s q₁, q₂) := by
  unfold poll_xr_event
  rw [pollLoop_loss s q₁ q₂ h]

/-- Witness for C3's amended theorem at a concrete queue. -/
theorem c3_loss_pending_witness :
    XrEvent.instanceLossPending ∉ [XrEvent.sessionStateChanged SessionState.visible] ∧
    poll_xr_event SessionState.idle
        ([XrEvent.sessionStateChanged SessionState.visible] ++
          XrEvent.instanceLossPending :: [XrEvent.sessionStateChanged SessionState.exiting]) =
      (Except.ok
          (applyStateChanges SessionState.idle
            [XrEvent.sessionStateChanged SessionState.visible]),
        applyStateChanges SessionState.idle
          [XrEvent.sessionStateChanged SessionState.visible],
        [XrEvent.sessionStateChanged SessionState.exiting]) :=
  ⟨by decide,
    c3_loss_pending_stops_loop_returns_ok SessionState.idle
      [XrEvent.sessionStateChanged SessionState.visible]
      [XrEvent.sessionStateChanged SessionState.exiting] (by decide)⟩

/-- C7: polling with no pending events returns the current session state
under `Ok` and leaves the session state and the (empty) queue unchanged. -/
theorem c7_poll_no_events_idempotent (s : SessionState) :
    poll_xr_event s [] = (Except.ok s, s, []) := rfl

/-- C4: `begin_frame` issues, in order, the frame wait, the frame-stream
begin, the swapchain image acquire (storing the index in `frame_index`),
and the image wait with the infinite default timeout; if the wait, begin,
or acquire call fails, the error is returned and none of the subsequent
calls is issued. -/
theorem c4_begin_frame_protocol (ctx : XrCtx) (rt : FrameRuntime) :
    (∀ fs idx, rt.waitRes = Except.ok fs → rt.beginRes = Except.ok () →
      rt.acquireRes = Except.ok idx → rt.waitImageRes = Except.ok () →
      begin_frame ctx rt =
        ({ ctx with frame_state := fs, frame_index := idx }, Except.ok (),
          [XrCall.waitFrame, XrCall.beginStream, XrCall.acquireImage,
            XrCall.waitImage xrInfiniteDuration])) ∧
    (∀ e, rt.waitRes = Except.error e →
      begin_frame ctx rt = (ctx, Except.error e, [XrCall.waitFrame])) ∧
    (∀ fs e, rt.waitRes = Except.ok fs → rt.beginRes = Except.error e →
      begin_frame ctx rt =
        ({ ctx with frame_state := fs }, Except.error e,
          [XrCall.waitFrame, XrCall.beginStream])) ∧
    (∀ fs e, rt.waitRes = Except.ok fs → rt.beginRes = Except.ok () →
      rt.acquireRes = Except.error e →
      begin_frame ctx rt =
        ({ ctx with frame_state := fs }, Except.error e,
          [XrCall.waitFrame, XrCall.beginStream, XrCall.acquireImage])) := by
  refine ⟨?_, ?_, ?_, ?_⟩
  · intro fs idx h1 h2 h3 h4
    simp [begin_frame, h1, h2, h3, h4]
  · intro e h1
    simp [begin_frame, h1]
  · intro fs e h1 h2
    simp [begin_frame, h1, h2]
  · intro fs e h1 h2 h3
    simp [begin_frame, h1, h2, h3]

/-- Witness for C4 on the all-success oracle at a concrete context. -/
theorem c4_begin_frame_witness :
    rtOk.waitRes = Except.ok fsW ∧ rtOk.beginRes = Except.ok () ∧
    rtOk.acquireRes = Except.ok 2 ∧ rtOk.waitImageRes = Except.ok () ∧
    begin_frame (XrContext_new { width := 128, height := 96 }) rtOk =
      ({ XrContext_new { width := 128, height := 96 } with
          frame_state := fsW, frame_index := 2 }, Except.ok (),
        [XrCall.waitFrame, XrCall.beginStream, XrCall.acquireImage,
          XrCall.waitImage xrInfiniteDuration]) :=
  ⟨rfl, rfl, rfl, rfl,
    (c4_begin_frame_protocol (XrContext_new { width := 128, height := 96 }) rtOk).1
      fsW 2 rfl rfl rfl rfl⟩

/-- C5: `end_frame` first releases the acquired swapchain image (a release
failure is fatal: the function panics), then builds exactly two projection
views — one per eye — from that frame's recorded poses and fields of view
and the full swapchain rectangle, and submits them at the frame's predicted
display time. -/
theorem c5_end_frame_layers (ctx : XrCtx) (rt : FrameRuntime) :
    (∀ v0 v1, ctx.views[0]? = some v0 → ctx.views[1]? = some v1 →
      rt.releaseRes = Except.ok () →
      end_frame ctx rt =
        some (rt.endRes,
          [{ pose := v0.pose, fov := v0.fov, image_array_index := 0,
              image_rect := fullRect ctx },
            { pose := v1.pose, fov := v1.fov, image_array_index := 1,
              image_rect := fullRect ctx }],
          [XrCall.releaseImage,
            XrCall.endStream ctx.frame_state.predicted_display_time])) ∧
    (∀ e, rt.releaseRes = Except.error e → end_frame ctx rt = none) := by
  constructor
  · intro v0 v1 h0 h1 hrel
    simp [end_frame, hrel, h0, h1]
  · intro e hrel
    simp [end_frame, hrel]

/-- Concrete context with two populated views, used in the C5 witness. -/
def ctx5 : XrCtx :=
  { XrContext_new { width := 64, height := 32 } with
      views := [viewA, viewB], frame_state := fsW }

/-- Witness for C5 at a concrete two-view context and all-success oracle. -/
theorem c5_end_frame_witness :
    ctx5.views[0]? = some viewA ∧ ctx5.views[1]? = some viewB ∧
    rtOk.releaseRes = Except.ok () ∧
    end_frame ctx5 rtOk =
      some (rtOk.endRes,
        [{ pose := viewA.pose, fov := viewA.fov, image_array_index := 0,
            image_rect := fullRect ctx5 },
          { pose := viewB.pose, fov := viewB.fov, image_array_index := 1,
            image_rect := fullRect ctx5 }],
        [XrCall.releaseImage,
          XrCall.endStream ctx5.frame_state.predicted_display_time]) :=
  ⟨rfl, rfl, rfl, (c5_end_frame_layers ctx5 rtOk).1 viewA viewB rfl rfl rfl⟩

/-- C9: `XrContext::_new` initializes `views` to the empty vector, and
`end_frame` on a context whose `views` holds fewer than two entries panics
(models the unchecked `self.views[0]` / `self.views[1]` indexing) instead
of returning an error. -/
theorem c9_end_frame_views_precondition (res : Extent2D) :
    (XrContext_new res).views = [] ∧
    (∀ ctx : XrCtx, ∀ rt : FrameRuntime, ctx.views.length < 2 →
      end_frame ctx rt = none) := by
  refine ⟨rfl, fun ctx rt hlen => ?_⟩
  have h1 : ctx.views[1]? = none := by
    rw [List.getElem?_eq_none_iff]
    omega
  cases hrel : rt.releaseRes with
  | error e => simp [end_frame, hrel]
  | ok u =>
    cases h0 : ctx.views[0]? with
    | none => simp [end_frame, hrel, h0, h1]
    | some v => simp [end_frame, hrel, h0, h1]

/-- Witness for C9: a freshly constructed context has no views, and calling
`end_frame` on it panics. -/
theorem c9_end_frame_views_witness :
    (XrContext_new { width := 128, height := 96 }).views = [] ∧
    (XrContext_new { width := 128, height := 96 }).views.length < 2 ∧
    end_frame (XrContext_new { width := 128, height := 96 }) rtOk = none :=
  ⟨(c9_end_frame_views_precondition { width := 128, height := 96 }).1,
    by decide,
    (c9_end_frame_views_precondition { width := 128, height := 96 }).2
      (XrContext_new { width := 128, height := 96 }) rtOk (by decide)⟩

/-- 4x4 matrices over ℚ: exact-arithmetic model of nalgebra's
`Matrix4<f32>` used by `TransformMatrix` and the skin matrices. -/
abbrev Mat4 := Matrix (Fin 4) (Fin 4) ℚ

/-- The `Skin` component: destination buffer slot id, the ordered joint
entities, and the parallel ordered inverse bind matrices. -/
structure Skin where
  id : Nat
  joints : List Nat
  inverse_bind_matrices : List Mat4

/-- One skin's row of the skins buffer: joint index to matrix. -/
abbrev JointMatrices := Nat → Mat4

/-- The skins buffer: `buffer[skin.id][joint index]`. -/
abbrev SkinsBuffer := Nat → JointMatrices

/-- The world's `TransformMatrix` components, keyed by entity
(`world.get::<TransformMatrix>(entity)`); `none` means the entity has no
such component, which the system `unwrap`s (a panic). -/
abbrev Transforms := Nat → Option Mat4

/-- nalgebra's `Matrix4::try_inverse`: `some` of the inverse when the
matrix is invertible (nonzero determinant), `none` otherwise. -/
def tryInverse (m : Mat4) : Option Mat4 :=
  if m.det = 0 then none else some (m.det⁻¹ • m.adjugate)

/-- The inner loop of `skinning_system`: walks `skin.joints` zipped with
`skin.inverse_bind_matrices` in declared order with running index `n`,
looks up each joint's world transform (`unwrap`: a missing component stops
the run with the partial writes kept and the panicked flag `false`), and
writes `inverse_transform * joint_transform * inverse_bind_matrix` into
slot `n`. -/
def writeJoints (invT : Mat4) (transforms : Transforms) :
    List (Nat × Mat4) → Nat → JointMatrices → JointMatrices × Bool
  | [], _, jm => (jm, true)
  | (joint, ibm) :: rest, n, jm =>
    match transforms joint with
    | none => (jm, false)
    | some tj =>
      writeJoints invT transforms rest (n + 1)
        (Function.update jm n (invT * tj * ibm))

/-- `skinning_system`: for each `(skin, transform_matrix)` query result in
iteration order, inverts the skin owner's world transform
(`try_inverse().unwrap()`: a singular transform stops the run with the
panicked flag `false`), then writes every joint's skin matrix into
`buffer[skin.id]`.  Returns the final buffer contents and `true` when the
run completed without panicking. -/
def skinning_system (transforms : Transforms) :
    List (Skin × Mat4) → SkinsBuffer → SkinsBuffer × Bool
  | [], buffer => (buffer, true)
  | (skin, tm) :: rest, buffer =>
    match tryInverse tm with
    | none => (buffer, false)
    | some invT =>
      let r := writeJoints invT transforms
        (skin.joints.zip skin.inverse_bind_matrices) 0 (buffer skin.id)
      let buffer' := Function.update buffer skin.id r.1
      if r.2 then skinning_system transforms rest buffer' else (buffer', false)

theorem tryInverse_eq_inv (m : Mat4) (h : m.det ≠ 0) : tryInverse m = some m⁻¹ := by
  unfold tryInverse
  rw [if_neg h, Matrix.inv_def, Ring.inverse_eq_inv]

theorem tryInverse_one : tryInverse (1 : Mat4) = some 1 := by
  unfold tryInverse
  rw [Matrix.det_one]
  norm_num [Matrix.adjugate_one]

theorem writeJoints_lt (invT : Mat4) (transforms : Transforms)
    (pairs : List (Nat × Mat4)) (n : Nat) (jm : JointMatrices) (k : Nat)
    (hk : k < n) :
    (writeJoints invT transforms pairs n jm).1 k = jm k := by
  induction pairs generalizing n jm with
  | nil => rfl
  | cons p rest ih =>
    obtain ⟨joint, ibm⟩ := p
    cases htj : transforms joint with
    | none => simp [writeJoints, htj]
    | some tj =>
      simp only [writeJoints, htj]
      rw [ih (n + 1) _ (Nat.lt_succ_of_lt hk)]
      exact Function.update_noteq (Nat.ne_of_lt hk) _ jm

theorem writeJoints_ok (invT : Mat4) (transforms : Transforms)
    (pairs : List (Nat × Mat4)) (n : Nat) (jm : JointMatrices)
    (h : ∀ p ∈ pairs, (transforms p.1).isSome) :
    (writeJoints invT transforms pairs n jm).2 = true := by
  induction pairs generalizing n jm with
  | nil => rfl
  | cons p rest ih =>
    obtain ⟨joint, ibm⟩ := p
    cases htj : transforms joint with
    | none =>
      have hs := h (joint, ibm) (List.mem_cons_self _ _)
      rw [htj] at hs
      exact absurd hs (by simp)
    | some tj =>
      simp only [writeJoints, htj]
      exact ih _ _ (fun q hq => h q (List.mem_cons_of_mem _ hq))

theorem writeJoints_slot (invT : Mat4) (transforms : Transforms)
    (pairs : List (Nat × Mat4)) (n : Nat) (jm : JointMatrices)
    (i joint : Nat) (ibm : Mat4) (hi : pairs[i]? = some (joint, ibm))
    (h : ∀ p ∈ pairs, (transforms p.1).isSome) :
    ∃ tj, transforms joint = some tj ∧
      (writeJoints invT transforms pairs n jm).1 (n + i) = invT * tj * ibm := by
  induction pairs generalizing n jm i with
  | nil => simp at hi
  | cons p rest ih =>
    obtain ⟨j0, b0⟩ := p
    cases htj : transforms j0 with
    | none =>
      have hs := h (j0, b0) (List.mem_cons_self _ _)
      rw [htj] at hs
      exact absurd hs (by simp)
    | some tj0 =>
      cases i with
      | zero =>
        rw [List.getElem?_cons_zero] at hi
        obtain ⟨hj, hb⟩ := Prod.mk.injEq .. ▸ Option.some.inj hi
        subst hj
        subst hb
        refine ⟨tj0, htj, ?_⟩
        simp only [writeJoints, htj, Nat.add_zero]
        rw [writeJoints_lt invT transforms rest (n + 1) _ n (Nat.lt_succ_self n)]
        exact Function.update_same n _ jm
      | succ i' =>
        rw [List.getElem?_cons_succ] at hi
        simp only [writeJoints, htj]
        have harith : n + (i' + 1) = (n + 1) + i' := by omega
        rw [harith]
        exact ih (n + 1) (Function.update jm n (invT * tj0 * b0)) i' hi
          (fun q hq => h q (List.mem_cons_of_mem _ hq))

theorem skinning_cons (transforms : Transforms) (skin : Skin) (tm : Mat4)
    (rest : List (Skin × Mat4)) (buffer : SkinsBuffer) (invT : Mat4)
    (hinv : tryInverse tm = some invT)
    (hok : (writeJoints invT transforms
      (skin.joints.zip skin.inverse_bind_matrices) 0 (buffer skin.id)).2 = true) :
    skinning_system transforms ((skin, tm) :: rest) buffer =
      skinning_system transforms rest
        (Function.update buffer skin.id
          (writeJoints invT transforms
            (skin.joints.zip skin.inverse_bind_matrices) 0 (buffer skin.id)).1) := by
  simp only [skinning_system, hinv, hok, if_true]

theorem skinning_cons_singular (transforms : Transforms) (skin : Skin)
    (tm : Mat4) (rest : List (Skin × Mat4)) (buffer : SkinsBuffer)
    (hbad : tryInverse tm = none) :
    skinning_system transforms ((skin, tm) :: rest) buffer = (buffer, false) := by
  simp only [skinning_system, hbad]

theorem skinning_ne (transforms : Transforms) (skins : List (Skin × Mat4))
    (buffer : SkinsBuffer) (sid : Nat) (h : ∀ p ∈ skins, p.1.id ≠ sid) :
    (skinning_system transforms skins buffer).1 sid = buffer sid := by
  induction skins generalizing buffer with
  | nil => rfl
  | cons q rest ih =>
    obtain ⟨skin, tm⟩ := q
    have hne : sid ≠ skin.id := (h (skin, tm) (List.mem_cons_self _ _)).symm
    cases hinv : tryInverse tm with
    | none => simp [skinning_system, hinv]
    | some invT =>
      simp only [skinning_system, hinv]
      cases hok : (writeJoints invT transforms
          (skin.joints.zip skin.inverse_bind_matrices) 0 (buffer skin.id)).2 with
      | false =>
        simp only [hok, Bool.false_eq_true, if_false]
        exact Function.update_noteq hne _ buffer
      | true =>
        simp only [hok, if_true]
        rw [ih _ (fun q hq => h q (List.mem_cons_of_mem _ hq))]
        exact Function.update_noteq hne _ buffer

theorem skinning_system_spec (transforms : Transforms)
    (skins : List (Skin × Mat4)) (buffer : SkinsBuffer)
    (hgood : ∀ p ∈ skins, Matrix.det p.2 ≠ 0 ∧
      ∀ j ∈ p.1.joints, (transforms j).isSome)
    (hnodup : (skins.map fun p => p.1.id).Nodup) :
    (skinning_system transforms skins buffer).2 = true ∧
    ∀ p ∈ skins, ∀ i joint ibm,
      (p.1.joints.zip p.1.inverse_bind_matrices)[i]? = some (joint, ibm) →
      ∃ tj, transforms joint = some tj ∧
        (skinning_system transforms skins buffer).1 p.1.id i =
          p.2⁻¹ * tj * ibm := by
  induction skins generalizing buffer with
  | nil => exact ⟨rfl, by simp⟩
  | cons q rest ih =>
    obtain ⟨skin, tm⟩ := q
    obtain ⟨hdet, hjoints⟩ := hgood (skin, tm) (List.mem_cons_self _ _)
    have hzip : ∀ p ∈ skin.joints.zip skin.inverse_bind_matrices,
        (transforms p.1).isSome :=
      fun p hp => hjoints p.1 (List.of_mem_zip hp).1
    have hinv := tryInverse_eq_inv tm hdet
    have hok := writeJoints_ok tm⁻¹ transforms
      (skin.joints.zip skin.inverse_bind_matrices) 0 (buffer skin.id) hzip
    rw [List.map_cons] at hnodup
    obtain ⟨hnotin, hnodup'⟩ := List.nodup_cons.mp hnodup
    have hgood' : ∀ p ∈ rest, Matrix.det p.2 ≠ 0 ∧
        ∀ j ∈ p.1.joints, (transforms j).isSome :=
      fun p hp => hgood p (List.mem_cons_of_mem _ hp)
    rw [skinning_cons transforms skin tm rest buffer tm⁻¹ hinv hok]
    obtain ⟨ihflag, ihslots⟩ :=
      ih (Function.update buffer skin.id
        (writeJoints tm⁻¹ transforms
          (skin.joints.zip skin.inverse_bind_matrices) 0 (buffer skin.id)).1)
        hgood' hnodup'
    refine ⟨ihflag, ?_⟩
    intro p hp i joint ibm hi
    rcases List.mem_cons.mp hp with hp | hp
    · subst hp
      obtain ⟨tj, htj, hslot⟩ := writeJoints_slot tm⁻¹ transforms
        (skin.joints.zip skin.inverse_bind_matrices) 0 (buffer skin.id)
        i joint ibm hi hzip
      refine ⟨tj, htj, ?_⟩
      have hne : ∀ q ∈ rest, q.1.id ≠ skin.id := by
        intro q hq hcontra
        exact hnotin (hcontra ▸ List.mem_map_of_mem _ hq)
      rw [skinning_ne transforms rest _ skin.id hne, Function.update_same]
      rw [Nat.zero_add] at hslot
      exact hslot
    · exact ihslots p hp i joint ibm hi

/-- C1: for every skeleton in the query (all with invertible root
transforms, resolvable joints, and distinct buffer ids), `skinning_system`
completes and writes, for joint `j` at declared position `i`, the matrix
`inverse(T_skel) * T_j * B_j_inverse` into `buffer[skin.id][i]`. -/
theorem c1_skin_matrix_formula (transforms : Transforms)
    (skins : List (Skin × Mat4)) (buffer : SkinsBuffer)
    (hgood : ∀ p ∈ skins, Matrix.det p.2 ≠ 0 ∧
      ∀ j ∈ p.1.joints, (transforms j).isSome)
    (hnodup : (skins.map fun p => p.1.id).Nodup) :
    (skinning_system transforms skins buffer).2 = true ∧
    ∀ p ∈ skins, ∀ i joint ibm,
      (p.1.joints.zip p.1.inverse_bind_matrices)[i]? = some (joint, ibm) →
      ∃ tj, transforms joint = some tj ∧
        (skinning_system transforms skins buffer).1 p.1.id i =
          p.2⁻¹ * tj * ibm :=
  skinning_system_spec transforms skins buffer hgood hnodup

/-- Concrete transform store used in the skinning witnesses: entity 0
carries the identity world transform. -/
def transformsW : Transforms := fun j => if j = 0 then some 1 else none

/-- Concrete skin used in the skinning witnesses. -/
def skinW : Skin := { id := 5, joints := [0], inverse_bind_matrices := [1] }

/-- Concrete skinning query result used in the skinning witnesses. -/
def skinsW : List (Skin × Mat4) := [(skinW, 1)]

/-- All-zero initial skins buffer used in the skinning witnesses. -/
def bufferW : SkinsBuffer := fun _ _ => 0

/-- Witness for C1 on a one-skin, one-joint world with identity
transforms. -/
theorem c1_skin_matrix_witness :
    (∀ p ∈ skinsW, Matrix.det p.2 ≠ 0 ∧
      ∀ j ∈ p.1.joints, (transformsW j).isSome) ∧
    (skinsW.map fun p => p.1.id).Nodup ∧
    ((skinning_system transformsW skinsW bufferW).2 = true ∧
      ∀ p ∈ skinsW, ∀ i joint ibm,
        (p.1.joints.zip p.1.inverse_bind_matrices)[i]? = some (joint, ibm) →
        ∃ tj, transformsW joint = some tj ∧
          (skinning_system transformsW skinsW bufferW).1 p.1.id i =
            p.2⁻¹ * tj * ibm) := by
  have hg : ∀ p ∈ skinsW, Matrix.det p.2 ≠ 0 ∧
      ∀ j ∈ p.1.joints, (transformsW j).isSome := by
    intro p hp
    simp only [skinsW, List.mem_singleton] at hp
    subst hp
    refine ⟨by rw [Matrix.det_one]; norm_num, ?_⟩
    intro j hj
    simp only [skinW, List.mem_singleton] at hj
    subst hj
    rfl
  have hn : (skinsW.map fun p => p.1.id).Nodup := by
    simp [skinsW]
  exact ⟨hg, hn, c1_skin_matrix_formula transformsW skinsW bufferW hg hn⟩

/-- A skin whose owning entity has a singular (zero) world transform. -/
def skinBad : Skin := { id := 3, joints := [], inverse_bind_matrices := [] }

/-- A query result in which a singular-rooted skeleton precedes a healthy
one. -/
def skinsBadGood : List (Skin × Mat4) := [(skinBad, 0), (skinW, 1)]

/-- C2 counterexample: with a singular-rooted skeleton first in the query
and a healthy skeleton after it, the run panics (`try_inverse().unwrap()`
fails: completion flag `false`, the whole pipeline crashes) and the healthy
skeleton's buffer slot still holds its initial zero value instead of its
correct skin matrix `inverse(1) * 1 * 1 = 1` — contradicting the claim
that the singular skeleton is skipped recoverably and all other skeletons
still receive their correct matrices. -/
theorem c2_counterexample :
    (skinning_system transformsW skinsBadGood bufferW).2 = false ∧
    (skinning_system transformsW skinsBadGood bufferW).1 skinW.id 0 0 0 = 0 ∧
    ((1 : Mat4)⁻¹ * 1 * 1) 0 0 = 1 := by
  have hbad : tryInverse (0 : Mat4) = none := by
    unfold tryInverse
    rw [if_pos (Matrix.det_zero ⟨0⟩)]
  have hrun : skinning_system transformsW skinsBadGood bufferW =
      (bufferW, false) :=
    skinning_cons_singular transformsW skinBad 0 [(skinW, 1)] bufferW hbad
  refine ⟨by rw [hrun], by rw [hrun]; rfl, ?_⟩
  rw [inv_one, one_mul, one_mul]
  exact Matrix.one_apply_eq 0

/-- C2 (amended): when the query contains a skeleton whose root transform
is singular, every skeleton before it in iteration order has its matrices
computed and written, and then the system panics: the run's completion
flag is `false`, no later skeleton is processed, and the buffer is left as
the prefix run left it. -/
theorem c2_singular_root_panics (transforms : Transforms)
    (pre post : List (Skin × Mat4)) (skin : Skin) (tm : Mat4)
    (buffer : SkinsBuffer)
    (hpre : ∀ p ∈ pre, Matrix.det p.2 ≠ 0 ∧
      ∀ j ∈ p.1.joints, (transforms j).isSome)
    (hbad : Matrix.det tm = 0) :
    skinning_system transforms (pre ++ (skin, tm) :: post) buffer =
      ((skinning_system transforms pre buffer).1, false) := by
  induction pre generalizing buffer with
  | nil =>
    have hnone : tryInverse tm = none := by
      unfold tryInverse
      rw [if_pos hbad]
    rw [List.nil_append,
      skinning_cons_singular transforms skin tm post buffer hnone]
    rfl
  | cons q rest ih =>
    obtain ⟨s0, t0⟩ := q
    obtain ⟨hdet, hjoints⟩ := hpre (s0, t0) (List.mem_cons_self _ _)
    have hzip : ∀ p ∈ s0.joints.zip s0.inverse_bind_matrices,
        (transforms p.1).isSome :=
      fun p hp => hjoints p.1 (List.of_mem_zip hp).1
    have hinv := tryInverse_eq_inv t0 hdet
    have hok := writeJoints_ok t0⁻¹ transforms
      (s0.joints.zip s0.inverse_bind_matrices) 0 (buffer s0.id) hzip
    rw [List.cons_append,
      skinning_cons transforms s0 t0 (rest ++ (skin, tm) :: post) buffer
        t0⁻¹ hinv hok,
      skinning_cons transforms s0 t0 rest buffer t0⁻¹ hinv hok]
    exact ih _ (fun p hp => hpre p (List.mem_cons_of_mem _ hp))

/-- Witness for C2's amended theorem: one healthy skeleton followed by a
singular-rooted one. -/
theorem c2_singular_root_witness :
    (∀ p ∈ skinsW, Matrix.det p.2 ≠ 0 ∧
      ∀ j ∈ p.1.joints, (transformsW j).isSome) ∧
    Matrix.det (0 : Mat4) = 0 ∧
    skinning_system transformsW (skinsW ++ (skinBad, 0) :: []) bufferW =
      ((skinning_system transformsW skinsW bufferW).1, false) := by
  have hg : ∀ p ∈ skinsW, Matrix.det p.2 ≠ 0 ∧
      ∀ j ∈ p.1.joints, (transformsW j).isSome := by
    intro p hp
    simp only [skinsW, List.mem_singleton] at hp
    subst hp
    refine ⟨by rw [Matrix.det_one]; norm_num, ?_⟩
    intro j hj
    simp only [skinW, List.mem_singleton] at hj
    subst hj
    rfl
  exact ⟨hg, Matrix.det_zero ⟨0⟩,
    c2_singular_root_panics transformsW skinsW [] skinBad 0 bufferW hg
      (Matrix.det_zero ⟨0⟩)⟩

/-- C8 (amended): re-running the skinning system after every joint's world
transform has been corrupted to the zero matrix makes every computed slot
`inverse(T_skel) * 0 * B_j_inverse`, the zero matrix; consequently every
slot whose pre-corruption value was nonzero changes, while a slot whose
pre-corruption value was already zero (possible, e.g. with a zero inverse
bind matrix) keeps the same value. -/
theorem c8_zero_joint_transforms (transformsZ transformsOld : Transforms)
    (skins : List (Skin × Mat4)) (buffer bufferOld : SkinsBuffer)
    (hroot : ∀ p ∈ skins, Matrix.det p.2 ≠ 0)
    (hzero : ∀ p ∈ skins, ∀ j ∈ p.1.joints, transformsZ j = some 0)
    (hnodup : (skins.map fun p => p.1.id).Nodup) :
    (skinning_system transformsZ skins buffer).2 = true ∧
    ∀ p ∈ skins, ∀ i joint ibm,
      (p.1.joints.zip p.1.inverse_bind_matrices)[i]? = some (joint, ibm) →
      (skinning_system transformsZ skins buffer).1 p.1.id i = 0 ∧
      ((skinning_system transformsOld skins bufferOld).1 p.1.id i ≠ 0 →
        (skinning_system transformsZ skins buffer).1 p.1.id i ≠
          (skinning_system transformsOld skins bufferOld).1 p.1.id i) := by
  have hgood : ∀ p ∈ skins, Matrix.det p.2 ≠ 0 ∧
      ∀ j ∈ p.1.joints, (transformsZ j).isSome := by
    intro p hp
    refine ⟨hroot p hp, fun j hj => ?_⟩
    rw [hzero p hp j hj]
    rfl
  obtain ⟨hflag, hslots⟩ :=
    skinning_system_spec transformsZ skins buffer hgood hnodup
  refine ⟨hflag, ?_⟩
  intro p hp i joint ibm hi
  obtain ⟨tj, htj, hslot⟩ := hslots p hp i joint ibm hi
  have hjmem : joint ∈ p.1.joints := (List.of_mem_zip (List.getElem?_mem hi)).1
  have htj0 : tj = 0 := by
    have hz := hzero p hp joint hjmem
    rw [hz] at htj
    exact (Option.some.inj htj).symm
  have hval : (skinning_system transformsZ skins buffer).1 p.1.id i = 0 := by
    rw [hslot, htj0, mul_zero, zero_mul]
  refine ⟨hval, fun hpre hc => hpre ?_⟩
  rw [hval] at hc
  exact hc.symm

/-- The all-zero corrupted transform store: every entity's world transform
is the zero matrix. -/
def transformsZero : Transforms := fun _ => some 0

/-- Witness for C8's amended theorem on the one-skin identity world. -/
theorem c8_zero_joint_witness :
    (∀ p ∈ skinsW, Matrix.det p.2 ≠ 0) ∧
    (∀ p ∈ skinsW, ∀ j ∈ p.1.joints, transformsZero j = some 0) ∧
    (skinsW.map fun p => p.1.id).Nodup ∧
    ((skinning_system transformsZero skinsW bufferW).2 = true ∧
      ∀ p ∈ skinsW, ∀ i joint ibm,
        (p.1.joints.zip p.1.inverse_bind_matrices)[i]? = some (joint, ibm) →
        (skinning_system transformsZero skinsW bufferW).1 p.1.id i = 0 ∧
        ((skinning_system transformsW skinsW bufferW).1 p.1.id i ≠ 0 →
          (skinning_system transformsZero skinsW bufferW).1 p.1.id i ≠
            (skinning_system transformsW skinsW bufferW).1 p.1.id i)) := by
  have hroot : ∀ p ∈ skinsW, Matrix.det p.2 ≠ 0 := by
    intro p hp
    simp only [skinsW, List.mem_singleton] at hp
    subst hp
    rw [Matrix.det_one]
    norm_num
  have hzero : ∀ p ∈ skinsW, ∀ j ∈ p.1.joints, transformsZero j = some 0 :=
    fun p _ j _ => rfl
  have hn : (skinsW.map fun p => p.1.id).Nodup := by
    simp [skinsW]
  exact ⟨hroot, hzero, hn,
    c8_zero_joint_transforms transformsZero transformsW skinsW bufferW bufferW
      hroot hzero hn⟩

/-- A skin whose single inverse bind matrix is zero, so its pre-corruption
skin matrix is already the zero matrix. -/
def skinC8 : Skin := { id := 7, joints := [0], inverse_bind_matrices := [0] }

/-- Query result for the C8 counterexample. -/
def skinsC8 : List (Skin × Mat4) := [(skinC8, 1)]

/-- C8 counterexample: for a skin whose inverse bind matrix is zero, the
pre-corruption run already writes the zero matrix, and the re-run after
zeroing every joint transform writes the zero matrix again — the slot does
not change, contradicting the claim that every computed skin matrix
changes relative to the pre-corruption run. -/
theorem c8_counterexample :
    (skinning_system transformsW skinsC8 bufferW).2 = true ∧
    (skinning_system transformsZero skinsC8
      (skinning_system transformsW skinsC8 bufferW).1).2 = true ∧
    (skinning_system transformsZero skinsC8
        (skinning_system transformsW skinsC8 bufferW).1).1 skinC8.id 0 =
      (skinning_system transformsW skinsC8 bufferW).1 skinC8.id 0 := by
  have hmem : (skinC8, (1 : Mat4)) ∈ skinsC8 := List.mem_singleton.mpr rfl
  have hi : (skinC8.joints.zip skinC8.inverse_bind_matrices)[0]? =
      some (0, (0 : Mat4)) := rfl
  have hnodup : (skinsC8.map fun p => p.1.id).Nodup := by simp [skinsC8]
  have hgood1 : ∀ p ∈ skinsC8, Matrix.det p.2 ≠ 0 ∧
      ∀ j ∈ p.1.joints, (transformsW j).isSome := by
    intro p hp
    simp only [skinsC8, List.mem_singleton] at hp
    subst hp
    refine ⟨by rw [Matrix.det_one]; norm_num, ?_⟩
    intro j hj
    simp only [skinC8, List.mem_singleton] at hj
    subst hj
    rfl
  have hgood2 : ∀ p ∈ skinsC8, Matrix.det p.2 ≠ 0 ∧
      ∀ j ∈ p.1.joints, (transformsZero j).isSome := by
    intro p hp
    simp only [skinsC8, List.mem_singleton] at hp
    subst hp
    exact ⟨by rw [Matrix.det_one]; norm_num, fun j _ => rfl⟩
  obtain ⟨hflag1, hslots1⟩ :=
    skinning_system_spec transformsW skinsC8 bufferW hgood1 hnodup
  obtain ⟨tj1, htj1, hslot1⟩ := hslots1 (skinC8, 1) hmem 0 0 0 hi
  obtain ⟨hflag2, hslots2⟩ :=
    skinning_system_spec transformsZero skinsC8
      (skinning_system transformsW skinsC8 bufferW).1 hgood2 hnodup
  obtain ⟨tj2, htj2, hslot2⟩ := hslots2 (skinC8, 1) hmem 0 0 0 hi
  refine ⟨hflag1, hflag2, ?_⟩
  rw [hslot1, hslot2, mul_zero, mul_zero]

/-- The stages the beat-saber example's `Schedule::builder()` can register,
plus the skinning stage named by the spec's pipeline. -/
inductive Stage
  | beginFrameStage
  | collision
  | physicsStep
  | sabers
  | cubeSpawner
  | updateRigidBodyTransforms
  | updateTransformMatrix
  | updateParentTransformMatrix
  | debugSync
  | skinning
  | rendering
  | endFrameStage
  deriving DecidableEq

/-- The per-frame schedule built in `real_main` of the beat-saber example,
in registration (and hence execution) order. -/
def beat_saber_schedule : List Stage :=
  [Stage.beginFrameStage,
    Stage.collision,
    Stage.physicsStep,
    Stage.sabers,
    Stage.cubeSpawner,
    Stage.updateRigidBodyTransforms,
    Stage.updateTransformMatrix,
    Stage.updateParentTransformMatrix,
    Stage.debugSync,
    Stage.rendering,
    Stage.endFrameStage]

/-- C6 counterexample: the schedule the example application builds contains
no skinning stage at all, contradicting the claim that every stage of the
section 4.3 pipeline — including skinning — is present exactly once per
frame. -/
theorem c6_counterexample :
    Stage.skinning ∉ beat_saber_schedule ∧
    beat_saber_schedule.count Stage.skinning = 0 := by
  constructor
  · decide
  · decide

/-- C6 (amended): the per-frame schedule runs `begin_frame` first and
`end_frame` last, with collision detection, physics integration, the
gameplay systems (sabers, cube spawner), rigid-body-to-transform
synchronization, the two transform-propagation systems, debug
synchronization and rendering each appearing exactly once in between, in
that order; the skinning stage is absent from this application's
schedule. -/
theorem c6_schedule_order :
    beat_saber_schedule.head? = some Stage.beginFrameStage ∧
    beat_saber_schedule.getLast? = some Stage.endFrameStage ∧
    beat_saber_schedule.count Stage.beginFrameStage = 1 ∧
    beat_saber_schedule.count Stage.collision = 1 ∧
    beat_saber_schedule.count Stage.physicsStep = 1 ∧
    beat_saber_schedule.count Stage.sabers = 1 ∧
    beat_saber_schedule.count Stage.cubeSpawner = 1 ∧
    beat_saber_schedule.count Stage.updateRigidBodyTransforms = 1 ∧
    beat_saber_schedule.count Stage.updateTransformMatrix = 1 ∧
    beat_saber_schedule.count Stage.updateParentTransformMatrix = 1 ∧
    beat_saber_schedule.count Stage.debugSync = 1 ∧
    beat_saber_schedule.count Stage.rendering = 1 ∧
    beat_saber_schedule.count Stage.endFrameStage = 1 ∧
    beat_saber_schedule.count Stage.skinning = 0 ∧
    beat_saber_schedule.indexOf Stage.beginFrameStage <
      beat_saber_schedule.indexOf Stage.collision ∧
    beat_saber_schedule.indexOf Stage.collision <
      beat_saber_schedule.indexOf Stage.physicsStep ∧
    beat_saber_schedule.indexOf Stage.physicsStep <
      beat_saber_schedule.indexOf Stage.sabers ∧
    beat_saber_schedule.indexOf Stage.sabers <
      beat_saber_schedule.indexOf Stage.cubeSpawner ∧
    beat_saber_schedule.indexOf Stage.cubeSpawner <
      beat_saber_schedule.indexOf Stage.updateRigidBodyTransforms ∧
    beat_saber_schedule.indexOf Stage.updateRigidBodyTransforms <
      beat_saber_schedule.indexOf Stage.updateTransformMatrix ∧
    beat_saber_schedule.indexOf Stage.updateTransformMatrix <
      beat_saber_schedule.indexOf Stage.updateParentTransformMatrix ∧
    beat_saber_schedule.indexOf Stage.updateParentTransformMatrix <
      beat_saber_schedule.indexOf Stage.debugSync ∧
    beat_saber_schedule.indexOf Stage.debugSync <
      beat_saber_schedule.indexOf Stage.rendering ∧
    beat_saber_schedule.indexOf Stage.rendering <
      beat_saber_schedule.indexOf Stage.endFrameStage := by
  decide

/-- A 4-vector of rationals, the exact-arithmetic model of nalgebra's
`Vector4<f32>`. -/
structure Vec4 where
  x : ℚ
  y : ℚ
  z : ℚ
  w : ℚ
  deriving DecidableEq

/-- A glTF texture reference carrying its texture-coordinate set index
(`tex_coord()`), as used by `get_texture_set` and the normal, occlusion and
emissive texture handling. -/
structure TextureInfo where
  tex_coord : Nat
  deriving DecidableEq

/-- The pbr-metallic-roughness block of a glTF material. -/
structure PbrMetallicRoughness where
  base_color_texture : Option TextureInfo
  metallic_roughness_texture : Option TextureInfo
  base_color_factor : Vec4
  metallic_factor : ℚ
  roughness_factor : ℚ
  deriving DecidableEq

/-- The optional pbr-specular-glossiness extension block of a glTF
material. -/
structure PbrSpecularGlossiness where
  diffuse_factor : Vec4
  specular_factor : ℚ × ℚ × ℚ
  deriving DecidableEq

/-- `gltf::material::AlphaMode`. -/
inductive AlphaMode
  | opaqueMode
  | maskMode
  | blendMode
  deriving DecidableEq

/-- The parts of a `gltf::Material` document node that `Material::load`
reads. -/
structure MaterialData where
  pbr_metallic_roughness : PbrMetallicRoughness
  pbr_specular_glossiness : Option PbrSpecularGlossiness
  normal_texture : Option TextureInfo
  occlusion_texture : Option TextureInfo
  emissive_texture : Option TextureInfo
  alpha_mode : AlphaMode
  alpha_cutoff : Option ℚ
  deriving DecidableEq

/-- The `Material` component: the factors and texture-set indices the
renderer would consume. -/
structure Material where
  base_color_factor : Vec4
  emissive_factor : Vec4
  diffuse_factor : Vec4
  specular_factor : Vec4
  workflow : ℚ
  base_color_texture_set : Int
  metallic_roughness_texture_set : Int
  normal_texture_set : Int
  occlusion_texture_set : Int
  emissive_texture_set : Int
  metallic_factor : ℚ
  roughness_factor : ℚ
  alpha_mask : ℚ
  alpha_mask_cutoff : ℚ
  deriving DecidableEq

/-- `arr_to_vec4`: pads a 3-vector with a zero fourth component. -/
def arr_to_vec4 (vec3 : ℚ × ℚ × ℚ) : Vec4 :=
  { x := vec3.1, y := vec3.2.1, z := vec3.2.2, w := 0 }

/-- `get_texture_set`: the texture's coordinate-set index, or -1 when the
texture is absent. -/
def get_texture_set (info : Option TextureInfo) : Int :=
  match info with
  | some t => (t.tex_coord : Int)
  | none => -1

/-- The `Material` value the body of `Material::load` constructs (and then
drops): every factor and texture-set index computed exactly as in the
source. -/
def buildMaterial (material : MaterialData) : Material :=
  let pbr_metallic_roughness := material.pbr_metallic_roughness
  let pbr_specular_glossiness := material.pbr_specular_glossiness
  let base_color_texture_set :=
    get_texture_set pbr_metallic_roughness.base_color_texture
  let base_color_factor := pbr_metallic_roughness.base_color_factor
  let metallic_roughness_texture_set :=
    get_texture_set pbr_metallic_roughness.metallic_roughness_texture
  let normal_texture_set : Int :=
    match material.normal_texture with
    | some t => (t.tex_coord : Int)
    | none => -1
  let occlusion_texture_set : Int :=
    match material.occlusion_texture with
    | some t => (t.tex_coord : Int)
    | none => -1
  let emissive_texture_set : Int :=
    match material.emissive_texture with
    | some t => (t.tex_coord : Int)
    | none => -1
  let emissive_factor : Vec4 := { x := 0, y := 0, z := 0, w := 0 }
  let diffuse_factor : Vec4 :=
    match pbr_specular_glossiness with
    | some p => p.diffuse_factor
    | none => { x := 0, y := 0, z := 0, w := 0 }
  let specular_factor : Vec4 :=
    match pbr_specular_glossiness with
    | some p => arr_to_vec4 p.specular_factor
    | none => { x := 0, y := 0, z := 0, w := 0 }
  let metallic_factor := pbr_metallic_roughness.metallic_factor
  let roughness_factor := pbr_metallic_roughness.roughness_factor
  let alpha : ℚ × ℚ :=
    match material.alpha_mode, material.alpha_cutoff with
    | AlphaMode.maskMode, _ => (1, 1 / 2)
    | _, some alpha_cutoff => (1, alpha_cutoff)
    | _, _ => (0, 1)
  let workflow : ℚ :=
    match pbr_specular_glossiness with
    | some _ => 1
    | none => 0
  { base_color_factor := base_color_factor
    emissive_factor := emissive_factor
    diffuse_factor := diffuse_factor
    specular_factor := specular_factor
    workflow := workflow
    base_color_texture_set := base_color_texture_set
    metallic_roughness_texture_set := metallic_roughness_texture_set
    normal_texture_set := normal_texture_set
    occlusion_texture_set := occlusion_texture_set
    emissive_texture_set := emissive_texture_set
    metallic_factor := metallic_factor
    roughness_factor := roughness_factor
    alpha_mask := alpha.1
    alpha_mask_cutoff := alpha.2 }

/-- The part of the asset-import context `Material::load` can fail on:
whether `Texture::empty(&import_context.vulkan_context)` succeeds (its `?`
is the only early return in the function). -/
structure ImportContext where
  emptyTextureOk : Bool
  deriving DecidableEq

/-- The error `Material::load` propagates when empty-texture creation
fails. -/
inductive MaterialLoadError
  | textureCreationFailed
  deriving DecidableEq

/-- `Material::load`: creates the empty fallback texture (propagating its
failure), computes every factor and texture-set index into a local
`Material` value, binds it, and returns `Ok(())` — the constructed value is
dropped, never stored or returned. -/
def Material.load (material : MaterialData) (import_context : ImportContext) :
    Except MaterialLoadError Unit :=
  if import_context.emptyTextureOk then
    let _material := buildMaterial material
    Except.ok ()
  else
    Except.error MaterialLoadError.textureCreationFailed

/-- A concrete glTF material with a red base-color factor. -/
def materialRed : MaterialData :=
  { pbr_metallic_roughness :=
      { base_color_texture := some { tex_coord := 0 }
        metallic_roughness_texture := none
        base_color_factor := { x := 1, y := 0, z := 0, w := 1 }
        metallic_factor := 1 / 2
        roughness_factor := 1 / 4 }
    pbr_specular_glossiness := none
    normal_texture := none
    occlusion_texture := none
    emissive_texture := none
    alpha_mode := AlphaMode.opaqueMode
    alpha_cutoff := none }

/-- A concrete glTF material with a blue base-color factor and a
specular-glossiness block. -/
def materialBlue : MaterialData :=
  { pbr_metallic_roughness :=
      { base_color_texture := none
        metallic_roughness_texture := some { tex_coord := 1 }
        base_color_factor := { x := 0, y := 0, z := 1, w := 1 }
        metallic_factor := 0
        roughness_factor := 1 }
    pbr_specular_glossiness :=
      some { diffuse_factor := { x := 1, y := 1, z := 1, w := 1 }
             specular_factor := (1, 2, 3) }
    normal_texture := some { tex_coord := 0 }
    occlusion_texture := none
    emissive_texture := none
    alpha_mode := AlphaMode.maskMode
    alpha_cutoff := none }

/-- C10: whenever empty-texture creation succeeds, `Material.load` returns
the unit value for every material input; two materials whose parsed
factors differ (the constructed `Material` values are distinct) are
indistinguishable through `Material.load` — the parsed factors and
texture-set indices are discarded, never delivered to the renderer. -/
theorem c10_material_load_discards_value (import_context : ImportContext)
    (h : import_context.emptyTextureOk = true) :
    (∀ material, Material.load material import_context = Except.ok ()) ∧
    buildMaterial materialRed ≠ buildMaterial materialBlue ∧
    Material.load materialRed import_context =
      Material.load materialBlue import_context := by
  refine ⟨fun material => ?_, by decide, ?_⟩
  · unfold Material.load
    rw [if_pos h]
  · unfold Material.load
    rw [if_pos h]

/-- Witness for C10 at a concrete import context. -/
theorem c10_material_load_witness :
    (ImportContext.mk true).emptyTextureOk = true ∧
    Material.load materialRed (ImportContext.mk true) = Except.ok () ∧
    buildMaterial materialRed ≠ buildMaterial materialBlue :=
  ⟨rfl,
    (c10_material_load_discards_value (ImportContext.mk true) rfl).1 materialRed,
    (c10_material_load_discards_value (ImportContext.mk true) rfl).2.1⟩
